import Mathlib

/-!
Shallow embedding of the vibeplay move-generation engine:
the game adapters (`src/main/games/tictactoe-llm.ts`), the move
orchestrator (`src/main/game-llm-interface.ts`), the backend factory
cache key (`src/main/llm-factory.ts`), the provider validation layer
(`src/main/providers/*.ts`) and the game session manager
(`gameManager` / `processMove`).

Conventions used throughout:
* JS strings are Lean `String`s; JS string truthiness (`!s`) is `s ≠ ""`.
* Optional (possibly `undefined`) fields are `Option _`; `undefined`
  is `none` and JS truthiness of an optional string is
  `truthyO` below.
* Numbers occurring as board indices are `Int` (the zod schemas bound
  them but negative / large values still reach the validity checks,
  which is why the source guards bounds explicitly).
* Boards are total functions from `Fin`-indices to cell strings.  A JS
  write `board[r][c] = v` under an in-range guard becomes a pointwise
  `if`-update; an out-of-range JS index access that would yield
  `undefined` is modelled with `Option`-returning cell lookups.
-/

namespace Vibeplay

/-! ## Tic-tac-toe adapter (`TicTacToeLLM`, src/main/games/tictactoe-llm.ts) -/

/-- Cells hold `"X"`, `"O"`, `""` or `" "` (both of the latter count as
empty in `isValidMove`). -/
def TTTBoard : Type := Fin 3 → Fin 3 → String

/-- Embeds `currentPlayer: 'X' | 'O'`. -/
inductive TTTPlayer : Type
| X
| O
deriving DecidableEq, Repr

/-- The board symbol written for a player. -/
def TTTPlayer.symbol : TTTPlayer → String
| .X => "X"
| .O => "O"

/-- Embeds `currentPlayer === 'X' ? 'O' : 'X'` in `applyMove`. -/
def TTTPlayer.next : TTTPlayer → TTTPlayer
| .X => .O
| .O => .X

/-- The fields of `TicTacToeLLMGameState` the move logic touches. -/
structure TTTState where
  board : TTTBoard
  currentPlayer : TTTPlayer
  gameOver : Bool
  winner : Option String

/-- Move payload `{ row, col }` parsed from the zod schema; the schema
bounds are re-checked by `isValidMove`, so we keep full `Int`s. -/
structure TTTMove where
  row : Int
  col : Int
deriving DecidableEq, Repr

/-- Embeds `TicTacToeLLM.isValidMove`: bounds check, then the target cell must
be `''` or `' '`. -/
def tttIsValidMove (s : TTTState) (m : TTTMove) : Bool :=
  if m.row < 0 || m.row > 2 || m.col < 0 || m.col > 2 then false
  else
    let cell := s.board ⟨m.row.toNat % 3, by omega⟩ ⟨m.col.toNat % 3, by omega⟩
    cell == "" || cell == " "

/-- Embeds `TicTacToeLLM.applyMove`: copy the board, write `currentPlayer`'s
symbol at `(row, col)`, switch the player.  (In JS an out-of-range
index would throw; the engine only calls `applyMove` on validated
moves, and on those this update is exact.) -/
def tttApplyMove (s : TTTState) (m : TTTMove) : TTTState :=
  { s with
    board := fun i j =>
      if (i.val : Int) = m.row ∧ (j.val : Int) = m.col then
        s.currentPlayer.symbol
      else s.board i j
    currentPlayer := s.currentPlayer.next }

/-- Result type of `checkGameEnd`. -/
structure GameEndResult where
  isEnded : Bool
  winner : Option String
deriving DecidableEq, Repr

/-- Embeds `row[0] && row[0] === row[1] && row[1] === row[2]` for row `i`
(JS truthiness of the first cell is `≠ ""`). -/
def tttRowWin (b : TTTBoard) (i : Fin 3) : Bool :=
  b i 0 != "" && b i 0 == b i 1 && b i 1 == b i 2

/-- Column win condition for column `j`. -/
def tttColWin (b : TTTBoard) (j : Fin 3) : Bool :=
  b 0 j != "" && b 0 j == b 1 j && b 1 j == b 2 j

/-- Main-diagonal win condition. -/
def tttDiagWin (b : TTTBoard) : Bool :=
  b 0 0 != "" && b 0 0 == b 1 1 && b 1 1 == b 2 2

/-- Anti-diagonal win condition. -/
def tttAntiDiagWin (b : TTTBoard) : Bool :=
  b 0 2 != "" && b 0 2 == b 1 1 && b 1 1 == b 2 0

/-- Embeds `board.every(row => row.every(cell => cell !== '' && cell !== ' '))`. -/
def tttIsFull (b : TTTBoard) : Bool :=
  decide (∀ i j : Fin 3, b i j ≠ "" ∧ b i j ≠ " ")

/-- Embeds `TicTacToeLLM.checkGameEnd`: rows in order, then columns in order,
then the two diagonals, then the draw check. -/
def tttCheckGameEnd (s : TTTState) : GameEndResult :=
  let b := s.board
  if tttRowWin b 0 then ⟨true, some (b 0 0)⟩
  else if tttRowWin b 1 then ⟨true, some (b 1 0)⟩
  else if tttRowWin b 2 then ⟨true, some (b 2 0)⟩
  else if tttColWin b 0 then ⟨true, some (b 0 0)⟩
  else if tttColWin b 1 then ⟨true, some (b 0 1)⟩
  else if tttColWin b 2 then ⟨true, some (b 0 2)⟩
  else if tttDiagWin b then ⟨true, some (b 0 0)⟩
  else if tttAntiDiagWin b then ⟨true, some (b 0 2)⟩
  else if tttIsFull b then ⟨true, some "draw"⟩
  else ⟨false, none⟩

/-- Embeds `TicTacToeLLM.getInvalidMoveMessage`. -/
def tttGetInvalidMoveMessage (s : TTTState) (m : TTTMove) : String :=
  if m.row < 0 || m.row > 2 || m.col < 0 || m.col > 2 then
    "Position (" ++ toString m.row ++ "," ++ toString m.col ++
      ") is out of bounds. Use coordinates 0-2 only."
  else
    "Position (" ++ toString m.row ++ "," ++ toString m.col ++
      ") is already occupied by " ++
      s.board ⟨m.row.toNat % 3, by omega⟩ ⟨m.col.toNat % 3, by omega⟩

/-! ## Connect-Four adapter (`Connect4LLM`, src/main/games/connect4-llm.ts) -/

/-- Board of 6 rows × 7 columns of `''` / `'red'` / `'yellow'` strings. -/
def C4Board : Type := Fin 6 → Fin 7 → String

/-- Embeds `Connect4Player = 'red' | 'yellow'` (also the zod enum for the
`player` field of a move). -/
inductive C4Player : Type
| red
| yellow
deriving DecidableEq, Repr

/-- The cell string written for a player. -/
def C4Player.str : C4Player → String
| .red => "red"
| .yellow => "yellow"

/-- Embeds `player === 'red' ? 'yellow' : 'red'` in `applyMove`. -/
def C4Player.next : C4Player → C4Player
| .red => .yellow
| .yellow => .red

/-- The fields of `Connect4GameState` the move logic touches. -/
structure C4State where
  board : C4Board
  currentPlayer : C4Player
  gameOver : Bool
  winner : Option String
  lastColumn : Option Int

/-- Embeds `Connect4MoveData = { column: number, player: 'red' | 'yellow' }`. -/
structure C4Move where
  column : Int
  player : C4Player
deriving DecidableEq, Repr

/-- JS `board[r][c]`: `some` cell for in-range indices, `none`
(`undefined`) otherwise. -/
def c4Cell? (b : C4Board) (r c : Int) : Option String :=
  if h : 0 ≤ r ∧ r < 6 ∧ 0 ≤ c ∧ c < 7 then
    some (b ⟨r.toNat, by omega⟩ ⟨c.toNat, by omega⟩)
  else none

/-- Embeds `Connect4LLM.isValidMove`: bounds check on the column, then the
top cell (`board[0][column]`) must be `''`.  The `player` field is
never consulted. -/
def c4IsValidMove (s : C4State) (m : C4Move) : Bool :=
  if m.column < 0 || m.column > 6 then false
  else c4Cell? s.board 0 m.column == some ""

/-- Embeds `Connect4LLM.findLowestEmptyRow`: scan rows 5 down to 0, return the
first row whose cell in `column` is `''`, else `-1`.  (The source's
`for` loop is unrolled; a JS out-of-range column gives `undefined`
cells, i.e. `none`, so every row misses and the result is `-1`.) -/
def c4FindLowestEmptyRow (b : C4Board) (column : Int) : Int :=
  if c4Cell? b 5 column = some "" then 5
  else if c4Cell? b 4 column = some "" then 4
  else if c4Cell? b 3 column = some "" then 3
  else if c4Cell? b 2 column = some "" then 2
  else if c4Cell? b 1 column = some "" then 1
  else if c4Cell? b 0 column = some "" then 0
  else -1

/-- Embeds `Connect4LLM.applyMove`: drop to the lowest empty row (throwing
`'Column is full'` when there is none), write `moveData.player`'s cell
via a per-index conditional map, switch `currentPlayer` to the player
opposite **the move's** player, record `lastColumn`. -/
def c4ApplyMove (s : C4State) (m : C4Move) : Except String C4State :=
  let row := c4FindLowestEmptyRow s.board m.column
  if row = -1 then .error "Column is full"
  else .ok
    { s with
      board := fun i j =>
        if (i.val : Int) = row ∧ (j.val : Int) = m.column then
          m.player.str
        else s.board i j
      currentPlayer := m.player.next
      lastColumn := some m.column }

/-- Embeds `Connect4LLM.getInvalidMoveMessage`. -/
def c4GetInvalidMoveMessage (_s : C4State) (m : C4Move) : String :=
  if m.column < 0 || m.column > 6 then
    "Column " ++ toString m.column ++ " is out of bounds. Use columns 0-6 only."
  else
    "Column " ++ toString m.column ++ " is full. Choose an OPEN column."

/-! ## ValidationResult (src/types/settings.ts) -/

/-- Embeds `{ valid: boolean, errors: string[], warnings?: string[] }`. -/
structure ValidationResult where
  valid : Bool
  errors : List String
  warnings : Option (List String)
deriving DecidableEq, Repr

/-! ## Move orchestrator (`BaseGameLLM.generateMove`,
src/main/game-llm-interface.ts)

The orchestrator is generic over the game, exactly as the abstract
class is: the game-specific pieces it consults are collected in
`GameOps`.  The LLM backend is abstracted as a stream of per-attempt
outcomes (`llm.invoke` either throws or returns response text), and
the structured-output parser for the game's schema is the `parse`
field (a pure function of the response text, as `parser.parse` is). -/

/-- The abstract-method surface of `BaseGameLLM` used by
`generateMove`, plus the schema parser derived from `getMoveSchema`. -/
structure GameOps (σ μ : Type) where
  isValidMove : σ → μ → Bool
  getInvalidMoveMessage : σ → μ → String
  parse : String → Except String (μ × Option String)

/-- One `llm.invoke` call either throws (message `msg`) or returns
response text. -/
inductive Outcome : Type
| threw (msg : String)
| replied (text : String)
deriving DecidableEq, Repr

/-- Embeds `GameLLMError.errorType` values. -/
inductive ErrType : Type
| invalid_move
| invalid_json
| connection_failed
| config_error
deriving DecidableEq, Repr

/-- A rejected promise from `generateMove`: the `Error` message, the
`llmResponse` diagnostic field and the `errorType` tag (both optional,
exactly as on `GameLLMError`). -/
structure GenError where
  message : String
  llmResponse : Option String
  errorType : Option ErrType
deriving DecidableEq, Repr

/-- The resolved value `{ move: { data, reasoning }, reasoning }`. -/
structure GenSuccess (μ : Type) where
  data : μ
  reasoning : Option String
deriving DecidableEq, Repr

deriving instance DecidableEq for Except

/-- Result of a `generateMove` call: how the promise settled, plus the
number of backend invocations (`llm.invoke` calls) the call performed,
counted across its recursive retries. -/
structure GenOutcome (μ : Type) where
  result : Except GenError (GenSuccess μ)
  attempts : Nat
deriving DecidableEq

/-- One attempt body (lines 81–120 of game-llm-interface.ts): invoke,
convert to text, parse, validate.  `fail` are the `throw`s with an
`errorType` already attached (parse failure) or the catch-block
reclassification of an untyped `invoke` exception; `illegal` is the
`!isValidMove` branch carrying the feedback message and the raw
response text. -/
inductive StepRes (μ : Type) : Type
| fail (e : GenError)
| success (r : GenSuccess μ)
| illegal (failureMessage : String) (text : String)

/-- Evaluate attempt number `idx` of a `generateMove` call chain. -/
def generateMoveStep (ops : GameOps σ μ) (stream : Nat → Outcome)
    (gameType : String) (s : σ) (idx : Nat) : StepRes μ :=
  match stream idx with
  | .threw msg =>
    -- untyped exception from `llm.invoke`, reclassified by the catch
    -- block: `${gameType} LLM request failed: ...`, `connection_failed`,
    -- llmResponse `error.response || 'No response'`.
    .fail ⟨gameType ++ " LLM request failed: " ++ msg,
           some "No response", some .connection_failed⟩
  | .replied text =>
    match ops.parse text with
    | .error parseError =>
      .fail ⟨"Failed to parse LLM response: " ++ parseError,
             some text, some .invalid_json⟩
    | .ok parsed =>
      if ops.isValidMove s parsed.1 then .success ⟨parsed.1, parsed.2⟩
      else .illegal (ops.getInvalidMoveMessage s parsed.1) text

/-- The catch block at the end of `generateMove` as it applies to the
result of the recursive self-call: errors that already carry an
`errorType` are re-thrown unchanged, untyped ones are wrapped as
`connection_failed`. -/
def catchReclassify (gameType : String) :
    Except GenError (GenSuccess μ) → Except GenError (GenSuccess μ)
| .ok r => .ok r
| .error e =>
  if e.errorType.isSome then .error e
  else .error ⟨gameType ++ " LLM request failed: " ++ e.message,
               some "No response", some .connection_failed⟩

/-- The per-call body of `generateMove` up to the treatment of an
illegal move, which the two retry-budget cases below plug in via
`onIllegal`: validate the configuration first (failing there is a
plain `Error` thrown before the try block — no `errorType`), then run
one attempt. -/
def generateMoveCore (ops : GameOps σ μ) (validation : ValidationResult)
    (stream : Nat → Outcome) (gameType : String) (s : σ) (idx : Nat)
    (onIllegal : String → String → GenOutcome μ) : GenOutcome μ :=
  if validation.valid = false then
    ⟨.error ⟨"AI configuration is invalid: " ++
             String.intercalate ", " validation.errors, none, none⟩, 0⟩
  else
    match generateMoveStep ops stream gameType s idx with
    | .fail e => ⟨.error e, 1⟩
    | .success r => ⟨.ok r, 1⟩
    | .illegal failureMessage text => onIllegal failureMessage text

/-- Embeds `BaseGameLLM.generateMove(gameState, maxRetries, previousFailures)`.
`validation` is the result of `SettingsService.validateProviderConfig`
(the same configuration is re-read and re-validated on every recursive
call, so it is a fixed parameter here); `idx` numbers the attempts so
that attempt `i` consumes `stream i`.  On an illegal move the source
tests `maxRetries > 0`: if so it re-invokes itself with
`maxRetries - 1` and the failure message appended (any rejection of
that inner call passes back through the outer catch block, hence
`catchReclassify`); at `maxRetries = 0` it throws `invalid_move`
carrying the current attempt's raw text. -/
def generateMoveAux (ops : GameOps σ μ) (validation : ValidationResult)
    (stream : Nat → Outcome) (gameType : String) (s : σ) :
    Nat → Nat → List String → GenOutcome μ
| Nat.succ k, idx, previousFailures =>
  generateMoveCore ops validation stream gameType s idx
    fun failureMessage _ =>
      let inner := generateMoveAux ops validation stream gameType s
        k (idx + 1) (previousFailures ++ [failureMessage])
      ⟨catchReclassify gameType inner.result, inner.attempts + 1⟩
| 0, idx, _ =>
  generateMoveCore ops validation stream gameType s idx
    fun failureMessage text =>
      ⟨.error ⟨"Invalid move after 3 attempts: " ++ failureMessage,
               some text, some .invalid_move⟩, 1⟩

/-- The public entry point: retries default from the caller, previous
failures start empty, attempts numbered from 0. -/
def generateMove (ops : GameOps σ μ) (validation : ValidationResult)
    (stream : Nat → Outcome) (gameType : String) (s : σ)
    (maxRetries : Nat) : GenOutcome μ :=
  generateMoveAux ops validation stream gameType s maxRetries 0 []

/-! ## Provider configuration (src/types/settings.ts) -/

/-- Embeds `AIProvider` enum. -/
inductive AIProvider : Type
| ollama
| openai
| anthropic
| google
| azureOpenai
| bedrock
deriving DecidableEq, Repr

/-- The string tag of each provider (its value in the TS union type). -/
def AIProvider.tag : AIProvider → String
| .ollama => "ollama"
| .openai => "openai"
| .anthropic => "anthropic"
| .google => "google"
| .azureOpenai => "azure-openai"
| .bedrock => "bedrock"

/-- Embeds `ProviderConfig`: required `provider`/`model`, all other fields
optional (`undefined` = `none`). -/
structure ProviderConfig where
  provider : AIProvider
  model : String
  url : Option String := none
  apiKey : Option String := none
  azureOpenAIApiInstanceName : Option String := none
  azureOpenAIApiDeploymentName : Option String := none
  azureOpenAIApiVersion : Option String := none
  region : Option String := none
  accessKeyId : Option String := none
  secretAccessKey : Option String := none
  crossRegion : Option Bool := none
deriving DecidableEq, Repr

/-- JS truthiness of an optional string: `undefined` and `''` are
falsy, every other string is truthy. -/
def truthyO : Option String → Bool
| none => false
| some s => s != ""

/-! ## Base provider helpers (`BaseProvider`, src/main/providers) -/

/-- Embeds `BaseProvider.validateRequired`: `!value || value.trim() === ''`
yields `"<field> is required"`. -/
def validateRequired (value : Option String) (fieldName : String) :
    Option String :=
  match value with
  | none => some (fieldName ++ " is required")
  | some s =>
    -- `value.trim() === ''` holds exactly when every character is
    -- whitespace (which also covers the falsy `''`).
    if s.data.all Char.isWhitespace then some (fieldName ++ " is required")
    else none

/-- Embeds `BaseProvider.validateUrl`: required check first, then `new URL(url)`;
whether the URL constructor accepts the string is host-environment
behaviour, abstracted as the oracle `urlOk`. -/
def validateUrl (urlOk : String → Bool) (url : Option String)
    (fieldName : String) : Option String :=
  match validateRequired url fieldName with
  | some e => some e
  | none =>
    if urlOk (url.getD "") then none
    else some ("Invalid " ++ fieldName ++ " format")

/-- Embeds `BaseProvider.createSuccess(warnings = [])`. -/
def createSuccess (warnings : List String) : ValidationResult :=
  ⟨true, [], some warnings⟩

/-- Embeds `BaseProvider.createError(error)`. -/
def createError (error : String) : ValidationResult :=
  ⟨false, [error], none⟩

/-! ## Per-provider `validateConfig` (src/main/providers/«provider».ts)

Each one accumulates error strings by sequential `push`es and returns
`{ valid: false, errors }` when any accumulated, else `createSuccess`.
The ordered candidate list below reproduces the push order. -/

/-- Embeds `OpenAIProvider.validateConfig`. -/
def openaiValidateConfig (c : ProviderConfig) : ValidationResult :=
  let errors := List.filterMap id
    [ validateRequired c.apiKey "API key",
      validateRequired (some c.model) "Model name",
      if truthyO c.apiKey && !((c.apiKey.getD "").startsWith "sk-") then
        some "OpenAI API key should start with \"sk-\""
      else none ]
  if errors.length > 0 then ⟨false, errors, none⟩ else createSuccess []

/-- Embeds `AnthropicProvider.validateConfig`. -/
def anthropicValidateConfig (c : ProviderConfig) : ValidationResult :=
  let errors := List.filterMap id
    [ validateRequired c.apiKey "API key",
      validateRequired (some c.model) "Model name",
      if truthyO c.apiKey && !((c.apiKey.getD "").startsWith "sk-ant-") then
        some "Anthropic API key should start with \"sk-ant-\""
      else none ]
  if errors.length > 0 then ⟨false, errors, none⟩ else createSuccess []

/-- Embeds `AzureOpenAIProvider.validateConfig`. -/
def azureValidateConfig (c : ProviderConfig) : ValidationResult :=
  let errors := List.filterMap id
    [ validateRequired c.apiKey "API key",
      validateRequired c.azureOpenAIApiInstanceName "Instance name",
      validateRequired c.azureOpenAIApiDeploymentName "Deployment name",
      validateRequired (some c.model) "Model name" ]
  if errors.length > 0 then ⟨false, errors, none⟩ else createSuccess []

/-- Embeds `OllamaProvider.validateConfig` (URL well-formedness via `urlOk`). -/
def ollamaValidateConfig (urlOk : String → Bool) (c : ProviderConfig) :
    ValidationResult :=
  let errors := List.filterMap id
    [ validateUrl urlOk c.url "Ollama URL",
      validateRequired (some c.model) "Model name" ]
  if errors.length > 0 then ⟨false, errors, none⟩ else createSuccess []

/-- The regex `^AKIA[0-9A-Z]{16}$` of `BedrockProvider.validateConfig`. -/
def isAKIAKey (s : String) : Bool :=
  s.length = 20 && s.startsWith "AKIA" &&
    ((s.drop 4).data.all fun ch => ch.isDigit || ('A' ≤ ch && ch ≤ 'Z'))

/-- Embeds `BedrockProvider.formatCrossRegionModel`. -/
def formatCrossRegionModel (modelName region : String) : String :=
  let regionPrefix :=
    if region.startsWith "us-" then "us."
    else if region.startsWith "eu-" then "eu."
    else if region.startsWith "ap-" then "ap."
    else if region.startsWith "ca-" then "ca."
    else if region.startsWith "sa-" then "sa."
    else ((region.splitOn "-").headD "") ++ "."
  if modelName.contains '.' then modelName
  else regionPrefix ++ modelName

/-- Embeds `BedrockProvider.validateConfig` (required fields, key-format hard
error, cross-region warning). -/
def bedrockValidateConfig (c : ProviderConfig) : ValidationResult :=
  let errors := List.filterMap id
    [ validateRequired c.region "AWS region",
      validateRequired c.accessKeyId "Access Key ID",
      validateRequired c.secretAccessKey "Secret Access Key",
      validateRequired (some c.model) "Model name",
      if truthyO c.accessKeyId && !(isAKIAKey (c.accessKeyId.getD "")) then
        some "AWS Access Key ID should start with \"AKIA\" followed by 16 alphanumeric characters"
      else none ]
  let warnings :=
    if c.crossRegion = some true && truthyO c.region && c.model != "" then
      let formattedModel := formatCrossRegionModel c.model (c.region.getD "")
      if formattedModel != c.model then
        ["Cross-region enabled: Model will be accessed as \"" ++
          formattedModel ++ "\""]
      else []
    else []
  if errors.length > 0 then ⟨false, errors, none⟩ else createSuccess warnings

/-- Modelled from the spec: `google-provider.ts` is not among the
available sources (only its registration in `ProviderFactory` is).
§4.1 specifies `validateConfig` as pure field-presence checks; like the
other API-key providers this is a required API key and a required model
name. -/
def googleValidateConfig (c : ProviderConfig) : ValidationResult :=
  let errors := List.filterMap id
    [ validateRequired c.apiKey "API key",
      validateRequired (some c.model) "Model name" ]
  if errors.length > 0 then ⟨false, errors, none⟩ else createSuccess []

/-! ## Per-provider `testConnection`

The network round trips are abstracted as a `ProbeEnv`: the outcome of
the LangChain `invoke` test call and (for Ollama) of the `/api/tags`
fetch.  `makeTestRequest` catches anything thrown and turns it into
`createError(message)`; each `testFn` ends in `createSuccess`. -/

/-- Host-environment outcomes a connectivity probe can observe. -/
structure ProbeEnv where
  invokeResult : Except String Unit
  tagsResult : Except String (List String)

/-- Embeds `OpenAIProvider.testConnection`. -/
def openaiTestConnection (c : ProviderConfig) (env : ProbeEnv) :
    ValidationResult :=
  if !(truthyO c.apiKey) || c.model = "" then
    createError "API key and model are required for connection test"
  else
    match env.invokeResult with
    | .error e => createError e
    | .ok _ => createSuccess []

/-- Embeds `AnthropicProvider.testConnection`. -/
def anthropicTestConnection (c : ProviderConfig) (env : ProbeEnv) :
    ValidationResult :=
  if !(truthyO c.apiKey) || c.model = "" then
    createError "API key and model are required for connection test"
  else
    match env.invokeResult with
    | .error e => createError e
    | .ok _ => createSuccess []

/-- Embeds `AzureOpenAIProvider.testConnection`. -/
def azureTestConnection (c : ProviderConfig) (env : ProbeEnv) :
    ValidationResult :=
  if !(truthyO c.apiKey) || !(truthyO c.azureOpenAIApiInstanceName)
      || !(truthyO c.azureOpenAIApiDeploymentName) then
    createError "API key, instance name, and deployment name are required for connection test"
  else
    match env.invokeResult with
    | .error e => createError e
    | .ok _ => createSuccess []

/-- Embeds `BedrockProvider.testConnection`. -/
def bedrockTestConnection (c : ProviderConfig) (env : ProbeEnv) :
    ValidationResult :=
  if !(truthyO c.region) || !(truthyO c.accessKeyId)
      || !(truthyO c.secretAccessKey) || c.model = "" then
    createError "Region, access key ID, secret access key, and model are required for connection test"
  else
    match env.invokeResult with
    | .error e => createError e
    | .ok _ => createSuccess []

/-- Embeds `OllamaProvider.testConnection`: fetch `/api/tags` (models list),
warn when the configured model is absent, then the LangChain test call. -/
def ollamaTestConnection (c : ProviderConfig) (env : ProbeEnv) :
    ValidationResult :=
  if !(truthyO c.url) || c.model = "" then
    createError "URL and model are required for connection test"
  else
    match env.tagsResult with
    | .error e => createError e
    | .ok models =>
      let warnings :=
        if models.any (fun n => n = c.model || n = c.model ++ ":latest") then
          []
        else
          ["Model \"" ++ c.model ++
            "\" not found on Ollama instance. Available models: " ++
            String.intercalate ", " models]
      match env.invokeResult with
      | .error e => createError e
      | .ok _ => createSuccess warnings

/-- Modelled from the spec: `google-provider.ts` is absent; §4.1 has
`testConnection` re-check configuration shape, then wrap the live
round-trip's failure into `ValidationResult{valid:false}`. -/
def googleTestConnection (c : ProviderConfig) (env : ProbeEnv) :
    ValidationResult :=
  if !(truthyO c.apiKey) || c.model = "" then
    createError "API key and model are required for connection test"
  else
    match env.invokeResult with
    | .error e => createError e
    | .ok _ => createSuccess []

/-! ## Provider factory dispatch and `LLMFactory.validateAndTest` -/

/-- Embeds `ProviderFactory.getProvider(...).validateConfig`: the static
initializer registers all six providers, so the lookup never throws. -/
def validateConfigFor (urlOk : String → Bool) :
    AIProvider → ProviderConfig → ValidationResult
| .ollama => ollamaValidateConfig urlOk
| .openai => openaiValidateConfig
| .anthropic => anthropicValidateConfig
| .google => googleValidateConfig
| .azureOpenai => azureValidateConfig
| .bedrock => bedrockValidateConfig

/-- Embeds `ProviderFactory.getProvider(...).testConnection`. -/
def testConnectionFor :
    AIProvider → ProviderConfig → ProbeEnv → ValidationResult
| .ollama => ollamaTestConnection
| .openai => openaiTestConnection
| .anthropic => anthropicTestConnection
| .google => googleTestConnection
| .azureOpenai => azureTestConnection
| .bedrock => bedrockTestConnection

/-- Embeds `LLMFactory.validateAndTest`: local validation first (returned
as-is when invalid), then the connection test, merging warnings. -/
def validateAndTest (urlOk : String → Bool) (c : ProviderConfig)
    (env : ProbeEnv) : ValidationResult :=
  let validationResult := validateConfigFor urlOk c.provider c
  if validationResult.valid = false then validationResult
  else
    let testResult := testConnectionFor c.provider c env
    ⟨testResult.valid, testResult.errors,
      some ((validationResult.warnings.getD []) ++ (testResult.warnings.getD []))⟩

/-! ## Backend cache key (`LLMFactory.createCacheKey`,
src/main/llm-factory.ts)

`createCacheKey` is `JSON.stringify` of a fixed-shape object literal.
The serialization is spelled out field by field below, exactly as
`JSON.stringify` renders that object: keys in insertion order, string
values quoted with JSON escaping, `undefined`-valued keys omitted, a
comma before every present field after the first.  The `temperature`
number's decimal rendering is taken as a string parameter. -/

/-- One JSON-escaped character: `"` and `\` get a backslash, the five
control characters with short forms use them, remaining control
characters become `\u00XX`, everything else is itself. -/
def escChar (c : Char) : List Char :=
  if c = '"' then ['\\', '"']
  else if c = '\\' then ['\\', '\\']
  else if c = Char.ofNat 8 then ['\\', 'b']
  else if c = Char.ofNat 9 then ['\\', 't']
  else if c = Char.ofNat 10 then ['\\', 'n']
  else if c = Char.ofNat 12 then ['\\', 'f']
  else if c = Char.ofNat 13 then ['\\', 'r']
  else if c.toNat < 32 then
    ['\\', 'u', '0', '0', hexDigit (c.toNat / 16), hexDigit (c.toNat % 16)]
  else [c]
where
  /-- Lower-case hex digit for `n < 16`. -/
  hexDigit (n : Nat) : Char :=
    if n < 10 then Char.ofNat (48 + n) else Char.ofNat (87 + n)

/-- JSON escaping of a character list. -/
def escL (l : List Char) : List Char := l.flatMap escChar

/-- JSON escaping of a string body. -/
def jsonEscape (s : String) : String := ⟨escL s.data⟩

/-- A JSON string literal: quote, escaped body, quote. -/
def jsonStr (s : String) : String := "\"" ++ jsonEscape s ++ "\""

/-- An optional (possibly-`undefined`) field of the key object: omitted
when `undefined`, else comma, quoted name, colon, value. -/
def optField (name : String) (v : Option String) : String :=
  match v with
  | none => ""
  | some s => "," ++ jsonStr name ++ ":" ++ s

/-- Embeds `LLMFactory.createCacheKey(config, temperature)` =
`JSON.stringify(keyObject)`.  The secret-bearing fields appear only as
the literals `'present'` / `'missing'` (JS truthiness of the field);
`secretAccessKey` is not in the key object at all. -/
def createCacheKey (c : ProviderConfig) (temperature : String) : String :=
  "\x7b\"provider\":" ++ jsonStr c.provider.tag ++
  ",\"model\":" ++ jsonStr c.model ++
  ",\"temperature\":" ++ temperature ++
  optField "url" (c.url.map jsonStr) ++
  ",\"apiKey\":" ++ jsonStr (if truthyO c.apiKey then "present" else "missing") ++
  optField "azureInstance" (c.azureOpenAIApiInstanceName.map jsonStr) ++
  optField "azureDeployment" (c.azureOpenAIApiDeploymentName.map jsonStr) ++
  optField "azureVersion" (c.azureOpenAIApiVersion.map jsonStr) ++
  optField "region" (c.region.map jsonStr) ++
  ",\"accessKeyId\":" ++ jsonStr (if truthyO c.accessKeyId then "present" else "missing") ++
  "\x7d"

/-- Inverse of the lower-case hex digit. -/
def unhex (c : Char) : Nat := if c.toNat ≤ 57 then c.toNat - 48 else c.toNat - 87

/-- Splits an escaped stream at its terminating unescaped quote:
`escSplit (fuel + 1) (escL l ++ '"' :: r) = some (l, r)` whenever
`fuel` covers the escaped body's length.  This is the JSON string
scanner used to show that the cache-key serialization is unambiguous
(the escaped body never ends before its closing quote); the explicit
fuel only bounds the recursion. -/
def escSplit : Nat → List Char → Option (List Char × List Char)
| 0, _ => none
| _ + 1, [] => none
| fuel + 1, c :: t =>
  if c = '"' then some ([], t)
  else if c = '\\' then
    match t with
    | [] => none
    | d :: t2 =>
      if d = '"' then (fun p => ('"' :: p.1, p.2)) <$> escSplit fuel t2
      else if d = '\\' then (fun p => ('\\' :: p.1, p.2)) <$> escSplit fuel t2
      else if d = 'b' then (fun p => (Char.ofNat 8 :: p.1, p.2)) <$> escSplit fuel t2
      else if d = 't' then (fun p => (Char.ofNat 9 :: p.1, p.2)) <$> escSplit fuel t2
      else if d = 'n' then (fun p => (Char.ofNat 10 :: p.1, p.2)) <$> escSplit fuel t2
      else if d = 'f' then (fun p => (Char.ofNat 12 :: p.1, p.2)) <$> escSplit fuel t2
      else if d = 'r' then (fun p => (Char.ofNat 13 :: p.1, p.2)) <$> escSplit fuel t2
      else if d = 'u' then
        match t2 with
        | e1 :: e2 :: h1 :: h2 :: t3 =>
          if e1 = '0' ∧ e2 = '0' then
            (fun p => (Char.ofNat (unhex h1 * 16 + unhex h2) :: p.1, p.2)) <$>
              escSplit fuel t3
          else none
        | _ => none
      else none
  else (fun p => (c :: p.1, p.2)) <$> escSplit fuel t

/-! ## Game session manager (`GameManager.processMove` and the
registered handlers, main-process game manager module)

`processMove` is generic in the game state (it only reads the
`BaseGameState` shape) and in the move payload; the state's
game-specific content is the `payload`. -/

/-- The `BaseGameState` shape `processMove` touches, over a
game-specific payload. -/
structure GState (α : Type) where
  gameType : String
  status : String
  gameOver : Bool
  winner : Option String
  payload : α

/-- The `GameHandler` interface of the game manager (the async
`applyMove` is its resolved value). -/
structure GameHandler (α μ : Type) where
  validateMove : GState α → μ → Bool
  applyMove : GState α → μ → GState α
  checkGameEnd : GState α → GameEndResult

/-- Embeds `Map.get` on the handler registry. -/
def lookupHandler (handlers : List (String × GameHandler α μ))
    (gameType : String) : Option (GameHandler α μ) :=
  (handlers.find? fun h => h.1 = gameType).map Prod.snd

/-- Embeds `GameManager.processMove`: dispatch on `gameState.gameType`, throw
without a handler, throw `'Invalid move'` when the handler's
`validateMove` rejects, otherwise apply, re-check terminal state and
fold `gameOver`/`status`/`winner` into the new state. -/
def processMove (handlers : List (String × GameHandler α μ))
    (s : GState α) (m : μ) : Except String (GState α) :=
  match lookupHandler handlers s.gameType with
  | none => .error ("No handler registered for game type: " ++ s.gameType)
  | some handler =>
    if handler.validateMove s m = false then .error "Invalid move"
    else
      let newState := handler.applyMove s m
      let gameEnd := handler.checkGameEnd newState
      if gameEnd.isEnded then
        .ok { newState with gameOver := true, status := "completed",
                            winner := gameEnd.winner }
      else .ok newState

/-- The handler registered by `gameManager.registerGameHandler` for
both `'tictactoe'` and `'connect4'`: `validateMove: () => true`,
`applyMove: async (gameState) => gameState`,
`checkGameEnd: () => ({ isEnded: false })`. -/
def stubHandler : GameHandler α μ :=
  ⟨fun _ _ => true, fun s _ => s, fun _ => ⟨false, none⟩⟩

/-- The registry contents after the module's registration calls. -/
def registeredHandlers (α μ : Type) : List (String × GameHandler α μ) :=
  [("tictactoe", stubHandler), ("connect4", stubHandler)]

/-! ## Derived notions the stated properties quantify over -/

/-- Number of cells where two tic-tac-toe boards disagree. -/
def boardDiffCount3 (b1 b2 : TTTBoard) : Nat :=
  (Finset.univ.filter fun p : Fin 3 × Fin 3 => b1 p.1 p.2 ≠ b2 p.1 p.2).card

/-- Number of cells where two Connect-Four boards disagree. -/
def boardDiffCount67 (b1 b2 : C4Board) : Nat :=
  (Finset.univ.filter fun p : Fin 6 × Fin 7 => b1 p.1 p.2 ≠ b2 p.1 p.2).card

/-- A board "contains a completed line": some row, column or diagonal
of three equal cells whose occupant is non-empty (JS-truthy). -/
def tttHasLine (b : TTTBoard) : Bool :=
  tttRowWin b 0 || tttRowWin b 1 || tttRowWin b 2 ||
  tttColWin b 0 || tttColWin b 1 || tttColWin b 2 ||
  tttDiagWin b || tttAntiDiagWin b

/-- Embeds `w` occupies some completed line of `b`. -/
def tttLineWinner (b : TTTBoard) (w : String) : Prop :=
  (∃ i, tttRowWin b i = true ∧ b i 0 = w) ∨
  (∃ j, tttColWin b j = true ∧ b 0 j = w) ∨
  (tttDiagWin b = true ∧ b 0 0 = w) ∨
  (tttAntiDiagWin b = true ∧ b 0 2 = w)

/-- Gravity for one Connect-Four column: any occupied cell has every
cell below it (larger row index) occupied.  Every state reachable by
`applyMove` from an empty board satisfies this per column. -/
def c4ColumnGravity (b : C4Board) (j : Fin 7) : Prop :=
  ∀ r r' : Fin 6, r ≤ r' → b r j ≠ "" → b r' j ≠ ""

instance (b : C4Board) (j : Fin 7) : Decidable (c4ColumnGravity b j) := by
  unfold c4ColumnGravity
  exact inferInstance

/-- The `ValidationResult` invariant: never invalid without an error. -/
def okVR (v : ValidationResult) : Prop := v.valid = false → v.errors ≠ []

/-! ## Concrete fixtures (used to instantiate the universally
quantified theorems on evaluable inputs) -/

/-- The empty tic-tac-toe board. -/
def demoEmptyBoard : TTTBoard := fun _ _ => ""

/-- A board with `X` in the top-left corner only. -/
def demoOccBoard : TTTBoard := fun i j => if i = 0 ∧ j = 0 then "X" else ""

/-- State with `X` to move on the empty board. -/
def demoStateEmpty : TTTState := ⟨demoEmptyBoard, .X, false, none⟩

/-- State with `O` to move with `(0,0)` already occupied. -/
def demoStateOcc : TTTState := ⟨demoOccBoard, .O, false, none⟩

/-- A two-point structured-output parser: the text `"good"` parses to
the move `(0,0)`, everything else is a parse failure. -/
def demoParse : String → Except String (TTTMove × Option String) :=
  fun t => if t = "good" then .ok (⟨0, 0⟩, none)
           else .error "SyntaxError: Unexpected token"

/-- The tic-tac-toe adapter operations with `demoParse` as parser. -/
def demoOps : GameOps TTTState TTTMove :=
  ⟨tttIsValidMove, tttGetInvalidMoveMessage, demoParse⟩

/-- First reply unparsable, all later replies parse to a legal move. -/
def demoStreamParseFail : Nat → Outcome :=
  fun k => if k = 0 then .replied "notjson" else .replied "good"

/-- Every reply parses to the move `(0,0)`. -/
def demoStreamGood : Nat → Outcome := fun _ => .replied "good"

/-- A passing configuration validation. -/
def demoValidationOK : ValidationResult := ⟨true, [], none⟩

/-- An OpenAI configuration with no key and no model. -/
def demoBadConfig : ProviderConfig := { provider := .openai, model := "" }

/-- Row 0 completed by `X`. -/
def demoRowWinBoard : TTTBoard :=
  fun i j => if i = 0 then "X" else if i = 1 ∧ (j = 0 ∨ j = 1) then "O" else ""

/-- A full board with no completed line (draw). -/
def demoDrawBoard : TTTBoard :=
  fun i j =>
    if i = 0 then (if j = 1 then "O" else "X")
    else if i = 1 then (if j = 0 then "X" else "O")
    else (if j = 0 then "O" else "X")

/-- Connect-Four fixture: column 3 filled to the top, column 2 holding
two pieces at the bottom, all other columns empty. -/
def demoC4Board : C4Board :=
  fun r c =>
    if c = 3 then "red" else if c = 2 ∧ (r = 5 ∨ r = 4) then "yellow" else ""

/-- Embeds `red` to move on `demoC4Board`. -/
def demoC4State : C4State := ⟨demoC4Board, .red, false, none, none⟩

/-- A caller-supplied move naming the opponent's colour into the empty
column 0. -/
def demoC10Move : C4Move := ⟨0, .yellow⟩

/-- The state `applyMove` produces for `demoC10Move` (total projection
of the `Except`; the move is valid, so the fallback arm is dead). -/
def demoC10Applied : C4State :=
  match c4ApplyMove demoC4State demoC10Move with
  | .ok s' => s'
  | .error _ => demoC4State

/-- Drop into the partially filled column 2 of `demoC4Board`. -/
def demoC8Move : C4Move := ⟨2, .red⟩

/-- The state `applyMove` produces for `demoC8Move`. -/
def demoC8Applied : C4State :=
  match c4ApplyMove demoC4State demoC8Move with
  | .ok s' => s'
  | .error _ => demoC4State

/-- The state `applyMove` produces for the centre move on the empty
tic-tac-toe board. -/
def demoC6Applied : TTTState := tttApplyMove demoStateEmpty ⟨1, 1⟩

/-- The session-manager state fixture wrapping the occupied board. -/
def demoGSOcc : GState TTTBoard :=
  ⟨"tictactoe", "in_progress", false, none, demoOccBoard⟩

/-- State with `X` to move on the row-win fixture. -/
def demoStateRowWin : TTTState := ⟨demoRowWinBoard, .X, false, none⟩

/-- State with `X` to move on the full drawn fixture. -/
def demoStateDraw : TTTState := ⟨demoDrawBoard, .X, false, none⟩

/-- A handler whose `validateMove` rejects everything (used to
exercise the session manager's rejection path). -/
def demoRejectHandler : GameHandler TTTBoard TTTMove :=
  ⟨fun _ _ => false, fun s _ => s, fun _ => ⟨false, none⟩⟩

/-- OpenAI configuration with a present key. -/
def demoCfgA : ProviderConfig :=
  { provider := .openai, model := "gpt-4o-mini", apiKey := some "sk-alpha" }

/-- Same as `demoCfgA` except both secret fields changed. -/
def demoCfgB : ProviderConfig :=
  { demoCfgA with apiKey := some "sk-beta", secretAccessKey := some "rotated" }

/-- Same as `demoCfgA` except the model id. -/
def demoCfgC : ProviderConfig := { demoCfgA with model := "gpt-4o" }

/-! # Theorems -/

/-- Any `generateMove` call chain in which every attempt yields a
schema-valid but rule-illegal move retries through its whole budget
and then fails as `invalid_move` carrying the final attempt's text. -/
theorem generateMoveAux_all_illegal (ops : GameOps σ μ) (v : ValidationResult)
    (stream : Nat → Outcome) (gameType : String) (s : σ)
    (texts : Nat → String) (moves : Nat → μ) (reasons : Nat → Option String)
    (hv : v.valid = true) :
    ∀ (n idx : Nat) (prev : List String),
      (∀ k, k ≤ n → stream (idx + k) = .replied (texts (idx + k))) →
      (∀ k, k ≤ n → ops.parse (texts (idx + k)) =
        .ok (moves (idx + k), reasons (idx + k))) →
      (∀ k, k ≤ n → ops.isValidMove s (moves (idx + k)) = false) →
      generateMoveAux ops v stream gameType s n idx prev =
        ⟨.error ⟨"Invalid move after 3 attempts: " ++
                 ops.getInvalidMoveMessage s (moves (idx + n)),
                 some (texts (idx + n)), some .invalid_move⟩, n + 1⟩ := by
  intro n
  induction n with
  | zero =>
    intro idx prev h1 h2 h3
    have e1 := h1 0 (Nat.le_refl 0)
    have e2 := h2 0 (Nat.le_refl 0)
    have e3 := h3 0 (Nat.le_refl 0)
    simp only [Nat.add_zero] at e1 e2 e3 ⊢
    simp [generateMoveAux, generateMoveCore, hv, generateMoveStep, e1, e2, e3]
  | succ k ih =>
    intro idx prev h1 h2 h3
    have e1 := h1 0 (Nat.zero_le _)
    have e2 := h2 0 (Nat.zero_le _)
    have e3 := h3 0 (Nat.zero_le _)
    simp only [Nat.add_zero] at e1 e2 e3
    have hrec := ih (idx + 1)
      (prev ++ [ops.getInvalidMoveMessage s (moves idx)])
      (fun j hj => by
        have := h1 (j + 1) (by omega)
        rwa [show idx + (j + 1) = idx + 1 + j by omega] at this)
      (fun j hj => by
        have := h2 (j + 1) (by omega)
        rwa [show idx + (j + 1) = idx + 1 + j by omega] at this)
      (fun j hj => by
        have := h3 (j + 1) (by omega)
        rwa [show idx + (j + 1) = idx + 1 + j by omega] at this)
    rw [show idx + 1 + k = idx + (k + 1) by omega] at hrec
    simp [generateMoveAux, generateMoveCore, hv, generateMoveStep, e1, e2, e3,
      hrec, catchReclassify]

/-- C1: when every attempt of a `generateMove(state, maxRetries)` call
produces a schema-valid but rule-illegal move, the call retries through
exactly `maxRetries` legality failures (performing `maxRetries + 1`
backend invocations in total — the budget-consuming failures plus the
final raising one) before rejecting with `errorType = invalid_move`,
and the error's `llmResponse` is the raw text of the last attempt
(attempt number `maxRetries`), not of any earlier attempt. -/
theorem C1_generateMove_exhausts_retries (ops : GameOps σ μ)
    (v : ValidationResult) (stream : Nat → Outcome) (gameType : String)
    (s : σ) (maxRetries : Nat)
    (texts : Nat → String) (moves : Nat → μ) (reasons : Nat → Option String)
    (hv : v.valid = true)
    (hstream : ∀ k, k ≤ maxRetries → stream k = .replied (texts k))
    (hparse : ∀ k, k ≤ maxRetries →
      ops.parse (texts k) = .ok (moves k, reasons k))
    (hbad : ∀ k, k ≤ maxRetries → ops.isValidMove s (moves k) = false) :
    generateMove ops v stream gameType s maxRetries =
      ⟨.error ⟨"Invalid move after 3 attempts: " ++
               ops.getInvalidMoveMessage s (moves maxRetries),
               some (texts maxRetries), some .invalid_move⟩,
       maxRetries + 1⟩ := by
  unfold generateMove
  have h := generateMoveAux_all_illegal ops v stream gameType s texts moves
    reasons hv maxRetries 0 []
    (fun k hk => by simpa using hstream k hk)
    (fun k hk => by simpa using hparse k hk)
    (fun k hk => by simpa using hbad k hk)
  simpa using h

/-- C1 witness: with every reply parsing to the already-occupied cell
`(0,0)` and a budget of 2 retries, the call fails `invalid_move` with
the last raw text attached after 3 invocations. -/
theorem C1_witness :
    (generateMove demoOps demoValidationOK demoStreamGood "TicTacToe"
        demoStateOcc 2).result =
      .error ⟨"Invalid move after 3 attempts: Position (0,0) is already occupied by X",
              some "good", some .invalid_move⟩ ∧
    (generateMove demoOps demoValidationOK demoStreamGood "TicTacToe"
        demoStateOcc 2).attempts = 3 := by
  have h := C1_generateMove_exhausts_retries demoOps demoValidationOK
    demoStreamGood "TicTacToe" demoStateOcc 2
    (fun _ => "good") (fun _ => (⟨0, 0⟩ : TTTMove)) (fun _ => none)
    (by decide) (fun _ _ => rfl) (fun _ _ => rfl) (fun _ _ => rfl)
  rw [h]
  exact ⟨by decide, rfl⟩

/-- C2 (amended): a response failing schema parse is classified
`invalid_json` with the raw text attached, but `generateMove` rejects
immediately on the first parse failure — a single backend invocation,
no retry, no feedback added — regardless of the remaining budget. -/
theorem C2_parse_failure_fails_immediately (ops : GameOps σ μ)
    (v : ValidationResult) (stream : Nat → Outcome) (gameType : String)
    (s : σ) (maxRetries idx : Nat) (prev : List String)
    (t pe : String)
    (hv : v.valid = true)
    (hstream : stream idx = .replied t)
    (hparse : ops.parse t = .error pe) :
    generateMoveAux ops v stream gameType s maxRetries idx prev =
      ⟨.error ⟨"Failed to parse LLM response: " ++ pe,
               some t, some .invalid_json⟩, 1⟩ := by
  cases maxRetries <;>
    simp [generateMoveAux, generateMoveCore, hv, generateMoveStep, hstream, hparse]

/-- C2 counterexample: the first reply is unparsable while the second
would be a legal move and 3 retries remain, yet the call fails at once
with `invalid_json` after a single invocation — refuting that a parse
failure "counts toward the retry budget and is retried while attempts
remain" with failure "only after the budget is exhausted". -/
theorem C2_counterexample :
    (generateMove demoOps demoValidationOK demoStreamParseFail "TicTacToe"
        demoStateEmpty 3).result =
      .error ⟨"Failed to parse LLM response: SyntaxError: Unexpected token",
              some "notjson", some .invalid_json⟩ ∧
    (generateMove demoOps demoValidationOK demoStreamParseFail "TicTacToe"
        demoStateEmpty 3).attempts = 1 ∧
    demoStreamParseFail 1 = .replied "good" ∧
    demoParse "good" = .ok (⟨0, 0⟩, none) ∧
    tttIsValidMove demoStateEmpty ⟨0, 0⟩ = true := by
  refine ⟨by decide, rfl, rfl, by decide, by decide⟩

/-- C2 witness: the immediate-failure theorem applied mid-chain (third
attempt, two prior feedback messages, two retries still unspent). -/
theorem C2_witness :
    generateMoveAux demoOps demoValidationOK demoStreamParseFail
        "TicTacToe" demoStateEmpty 2 0 ["a", "b"] =
      ⟨.error ⟨"Failed to parse LLM response: SyntaxError: Unexpected token",
               some "notjson", some .invalid_json⟩, 1⟩ :=
  C2_parse_failure_fails_immediately demoOps demoValidationOK
    demoStreamParseFail "TicTacToe" demoStateEmpty 2 0 ["a", "b"]
    "notjson" "SyntaxError: Unexpected token" (by decide) rfl (by decide)

/-- C3 (amended): an invalid provider configuration makes
`generateMove` fail immediately — before any backend invocation and
with no retry — but with a plain error carrying **no** `errorType`
(the declared `config_error` kind is never assigned by the source). -/
theorem C3_invalid_config_fails_untyped (ops : GameOps σ μ)
    (v : ValidationResult) (stream : Nat → Outcome) (gameType : String)
    (s : σ) (maxRetries idx : Nat) (prev : List String)
    (hv : v.valid = false) :
    generateMoveAux ops v stream gameType s maxRetries idx prev =
      ⟨.error ⟨"AI configuration is invalid: " ++
               String.intercalate ", " v.errors, none, none⟩, 0⟩ := by
  cases maxRetries <;> simp [generateMoveAux, generateMoveCore, hv]

/-- C3 counterexample: with an invalid OpenAI configuration the call
rejects before any invocation with an error whose `errorType` is
`none` — not `config_error` as the claim states. -/
theorem C3_counterexample :
    (generateMove demoOps (openaiValidateConfig demoBadConfig)
        demoStreamGood "TicTacToe" demoStateEmpty 3).result =
      .error ⟨"AI configuration is invalid: API key is required, Model name is required",
              none, none⟩ ∧
    (generateMove demoOps (openaiValidateConfig demoBadConfig)
        demoStreamGood "TicTacToe" demoStateEmpty 3).attempts = 0 ∧
    (none : Option ErrType) ≠ some .config_error := by
  refine ⟨by decide, rfl, by decide⟩

/-- C3 witness: the untyped-immediate-failure theorem applied to the
invalid OpenAI configuration fixture. -/
theorem C3_witness :
    generateMoveAux demoOps (openaiValidateConfig demoBadConfig)
        demoStreamGood "TicTacToe" demoStateEmpty 3 0 [] =
      ⟨.error ⟨"AI configuration is invalid: API key is required, Model name is required",
               none, none⟩, 0⟩ := by
  have h := C3_invalid_config_fails_untyped demoOps
    (openaiValidateConfig demoBadConfig) demoStreamGood "TicTacToe"
    demoStateEmpty 3 0 [] (by decide)
  rw [h]
  decide

/-- C4 (amended): `GameManager.processMove` does dispatch to the
registered handler, failing without one, and throws `'Invalid move'`
whenever the handler's `validateMove` rejects; but the handlers the
module registers for `'tictactoe'` and `'connect4'` are stubs that
accept every move and return the state unchanged, so through this path
a caller-supplied move is never rejected and never alters the state. -/
theorem C4_processMove_delegation (α μ : Type)
    (handlers : List (String × GameHandler α μ)) (s : GState α) (m : μ)
    (h : GameHandler α μ) :
    (lookupHandler handlers s.gameType = none →
      processMove handlers s m =
        .error ("No handler registered for game type: " ++ s.gameType)) ∧
    (lookupHandler handlers s.gameType = some h →
      h.validateMove s m = false →
      processMove handlers s m = .error "Invalid move") ∧
    ((s.gameType = "tictactoe" ∨ s.gameType = "connect4") →
      processMove (registeredHandlers α μ) s m = .ok s) := by
  refine ⟨?_, ?_, ?_⟩
  · intro hn
    simp [processMove, hn]
  · intro hs hv
    simp [processMove, hs, hv]
  · intro hg
    rcases hg with hg | hg <;>
      simp [processMove, lookupHandler, registeredHandlers, stubHandler,
        List.find?, hg]

/-- C4 counterexample: with the handlers the module registers, a move
into the already occupied cell `(0,0)` — illegal per the tic-tac-toe
adapter's own `isValidMove` — is accepted without error and the state
comes back unchanged; and the legal move `(1,1)` also comes back with
the state unchanged.  This refutes that "an illegal move is never
silently applied and a legal move actually changes the state via the
adapter's apply". -/
theorem C4_counterexample :
    tttIsValidMove ⟨demoGSOcc.payload, .O, false, none⟩ ⟨0, 0⟩ = false ∧
    processMove (registeredHandlers TTTBoard TTTMove) demoGSOcc ⟨0, 0⟩ =
      .ok demoGSOcc ∧
    tttIsValidMove ⟨demoGSOcc.payload, .O, false, none⟩ ⟨1, 1⟩ = true ∧
    processMove (registeredHandlers TTTBoard TTTMove) demoGSOcc ⟨1, 1⟩ =
      .ok demoGSOcc := by
  refine ⟨by decide, rfl, by decide, rfl⟩

/-- C4 witness: the three delegation facts exercised on concrete
registries — an empty registry, a rejecting handler, and the module's
registered stubs. -/
theorem C4_witness :
    processMove ([] : List (String × GameHandler TTTBoard TTTMove))
        demoGSOcc ⟨0, 0⟩ =
      .error ("No handler registered for game type: " ++ demoGSOcc.gameType) ∧
    processMove [("tictactoe", demoRejectHandler)] demoGSOcc ⟨0, 0⟩ =
      .error "Invalid move" ∧
    processMove (registeredHandlers TTTBoard TTTMove) demoGSOcc ⟨0, 0⟩ =
      .ok demoGSOcc := by
  refine ⟨?_, ?_, ?_⟩
  · exact (C4_processMove_delegation TTTBoard TTTMove [] demoGSOcc ⟨0, 0⟩
      demoRejectHandler).1 rfl
  · exact (C4_processMove_delegation TTTBoard TTTMove
      [("tictactoe", demoRejectHandler)] demoGSOcc ⟨0, 0⟩
      demoRejectHandler).2.1 rfl rfl
  · exact (C4_processMove_delegation TTTBoard TTTMove [] demoGSOcc ⟨0, 0⟩
      demoRejectHandler).2.2 (Or.inl rfl)

/-- C9: every `ValidationResult` produced by the helpers, the
per-provider `validateConfig`s and `testConnection`s, or
`LLMFactory.validateAndTest` satisfies `valid = false → errors ≠ []`. -/
theorem C9_validation_results_sound :
    (∀ w, okVR (createSuccess w)) ∧
    (∀ e, okVR (createError e)) ∧
    (∀ urlOk p c, okVR (validateConfigFor urlOk p c)) ∧
    (∀ p c env, okVR (testConnectionFor p c env)) ∧
    (∀ urlOk c env, okVR (validateAndTest urlOk c env)) := by
  have hS : ∀ w, okVR (createSuccess w) := by
    intro w hf
    simp [createSuccess] at hf
  have hE : ∀ e, okVR (createError e) := by
    intro e _
    simp [createError]
  have hIf : ∀ (errors w : List String),
      okVR (if errors.length > 0 then ⟨false, errors, none⟩
            else createSuccess w) := by
    intro errors w
    by_cases h : errors.length > 0
    · simp only [if_pos h]
      exact fun _ => List.length_pos.mp h
    · simp only [if_neg h]
      exact hS w
  have hVC : ∀ urlOk p c, okVR (validateConfigFor urlOk p c) := by
    intro urlOk p c
    cases p <;> exact hIf _ _
  have hTC : ∀ p c env, okVR (testConnectionFor p c env) := by
    intro p c env
    cases p with
    | ollama =>
      simp only [testConnectionFor, ollamaTestConnection]
      split
      · exact hE _
      · cases h2 : env.tagsResult with
        | error e => simp only [h2]; exact hE _
        | ok models =>
          simp only [h2]
          cases h3 : env.invokeResult with
          | error e => simp only [h3]; exact hE _
          | ok u => simp only [h3]; exact hS _
    | openai =>
      simp only [testConnectionFor, openaiTestConnection]
      split
      · exact hE _
      · cases h2 : env.invokeResult with
        | error e => simp only [h2]; exact hE _
        | ok u => simp only [h2]; exact hS _
    | anthropic =>
      simp only [testConnectionFor, anthropicTestConnection]
      split
      · exact hE _
      · cases h2 : env.invokeResult with
        | error e => simp only [h2]; exact hE _
        | ok u => simp only [h2]; exact hS _
    | google =>
      simp only [testConnectionFor, googleTestConnection]
      split
      · exact hE _
      · cases h2 : env.invokeResult with
        | error e => simp only [h2]; exact hE _
        | ok u => simp only [h2]; exact hS _
    | azureOpenai =>
      simp only [testConnectionFor, azureTestConnection]
      split
      · exact hE _
      · cases h2 : env.invokeResult with
        | error e => simp only [h2]; exact hE _
        | ok u => simp only [h2]; exact hS _
    | bedrock =>
      simp only [testConnectionFor, bedrockTestConnection]
      split
      · exact hE _
      · cases h2 : env.invokeResult with
        | error e => simp only [h2]; exact hE _
        | ok u => simp only [h2]; exact hS _
  have hVT : ∀ urlOk c env, okVR (validateAndTest urlOk c env) := by
    intro urlOk c env
    simp only [validateAndTest]
    by_cases h : (validateConfigFor urlOk c.provider c).valid = false
    · simp only [if_pos h]
      exact hVC _ _ _
    · simp only [if_neg h]
      intro hf
      exact hTC c.provider c env hf
  exact ⟨hS, hE, hVC, hTC, hVT⟩

/-- C9 witness: the invariant applied to the invalid OpenAI
configuration fixture, whose validation indeed reports errors. -/
theorem C9_witness :
    (validateConfigFor (fun _ => true) .openai demoBadConfig).valid = false ∧
    (validateConfigFor (fun _ => true) .openai demoBadConfig).errors ≠ [] :=
  ⟨by decide,
   C9_validation_results_sound.2.2.1 (fun _ => true) .openai demoBadConfig
     (by decide)⟩

/-- A valid tic-tac-toe move addresses an in-range, empty cell. -/
theorem tttValid_dest (s : TTTState) (m : TTTMove)
    (h : tttIsValidMove s m = true) :
    ∃ (i j : Fin 3), (i.val : Int) = m.row ∧ (j.val : Int) = m.col ∧
      (s.board i j = "" ∨ s.board i j = " ") := by
  unfold tttIsValidMove at h
  split at h
  · exact absurd h (by simp)
  · rename_i hcond
    simp only [Bool.or_eq_true, decide_eq_true_eq] at hcond
    push_neg at hcond
    have hrn : m.row.toNat < 3 := by omega
    have hcn : m.col.toNat < 3 := by omega
    refine ⟨⟨m.row.toNat, hrn⟩, ⟨m.col.toNat, hcn⟩, ?_, ?_, ?_⟩
    · simpa using Int.toNat_of_nonneg (by omega)
    · simpa using Int.toNat_of_nonneg (by omega)
    · have hfr : (⟨m.row.toNat % 3, by omega⟩ : Fin 3) = ⟨m.row.toNat, hrn⟩ := by
        apply Fin.ext
        simp [Nat.mod_eq_of_lt hrn]
      have hfc : (⟨m.col.toNat % 3, by omega⟩ : Fin 3) = ⟨m.col.toNat, hcn⟩ := by
        apply Fin.ext
        simp [Nat.mod_eq_of_lt hcn]
      rw [hfr, hfc] at h
      simpa only [Bool.or_eq_true, beq_iff_eq] using h

/-- Embeds `c4Cell?` on an out-of-range index. -/
theorem c4Cell?_none (b : C4Board) (r c : Int)
    (h : ¬(0 ≤ r ∧ r < 6 ∧ 0 ≤ c ∧ c < 7)) : c4Cell? b r c = none :=
  dif_neg h

/-- Embeds `c4Cell?` on an in-range index. -/
theorem c4Cell?_pos (b : C4Board) (r c : Int) (hr : 0 ≤ r) (hr6 : r < 6)
    (hc : 0 ≤ c) (hc7 : c < 7) :
    c4Cell? b r c = some (b ⟨r.toNat, by omega⟩ ⟨c.toNat, by omega⟩) :=
  dif_pos ⟨hr, hr6, hc, hc7⟩

/-- Specification of the bottom-up scan: either no cell of the column
is empty and the result is `-1`, or the result is the greatest-index
empty row (every row strictly below it is not empty). -/
theorem c4Find_spec (b : C4Board) (col : Int) :
    (c4FindLowestEmptyRow b col = -1 ∧
      ∀ r : Int, c4Cell? b r col ≠ some "") ∨
    (∃ r : Fin 6, c4FindLowestEmptyRow b col = (r.val : Int) ∧
      c4Cell? b (r.val : Int) col = some "" ∧
      ∀ r' : Int, (r.val : Int) < r' → c4Cell? b r' col ≠ some "") := by
  have hout : ∀ r' : Int, 6 ≤ r' → c4Cell? b r' col ≠ some "" := by
    intro r' hr'
    rw [c4Cell?_none b r' col (by rintro ⟨_, h2, _⟩; omega)]
    simp
  by_cases h5 : c4Cell? b 5 col = some ""
  · refine .inr ⟨⟨5, by omega⟩, by simp [c4FindLowestEmptyRow, h5], by simpa using h5, ?_⟩
    intro r' hr'
    have h5' : (5 : Int) < r' := by simpa using hr'
    exact hout r' (by omega)
  · by_cases h4 : c4Cell? b 4 col = some ""
    · refine .inr ⟨⟨4, by omega⟩, by simp [c4FindLowestEmptyRow, h5, h4],
        by simpa using h4, ?_⟩
      intro r' hr'
      by_cases h6 : 6 ≤ r'
      · exact hout r' h6
      · have : r' = 5 := by simp at hr'; omega
        subst this
        exact h5
    · by_cases h3 : c4Cell? b 3 col = some ""
      · refine .inr ⟨⟨3, by omega⟩, by simp [c4FindLowestEmptyRow, h5, h4, h3],
          by simpa using h3, ?_⟩
        intro r' hr'
        by_cases h6 : 6 ≤ r'
        · exact hout r' h6
        · simp at hr'
          interval_cases r'
          · exact h4
          · exact h5
      · by_cases h2 : c4Cell? b 2 col = some ""
        · refine .inr ⟨⟨2, by omega⟩, by simp [c4FindLowestEmptyRow, h5, h4, h3, h2],
            by simpa using h2, ?_⟩
          intro r' hr'
          by_cases h6 : 6 ≤ r'
          · exact hout r' h6
          · simp at hr'
            interval_cases r'
            · exact h3
            · exact h4
            · exact h5
        · by_cases h1 : c4Cell? b 1 col = some ""
          · refine .inr ⟨⟨1, by omega⟩, by simp [c4FindLowestEmptyRow, h5, h4, h3, h2, h1],
              by simpa using h1, ?_⟩
            intro r' hr'
            by_cases h6 : 6 ≤ r'
            · exact hout r' h6
            · simp at hr'
              interval_cases r'
              · exact h2
              · exact h3
              · exact h4
              · exact h5
          · by_cases h0 : c4Cell? b 0 col = some ""
            · refine .inr ⟨⟨0, by omega⟩, by simp [c4FindLowestEmptyRow, h5, h4, h3, h2, h1, h0],
                by simpa using h0, ?_⟩
              intro r' hr'
              by_cases h6 : 6 ≤ r'
              · exact hout r' h6
              · simp at hr'
                interval_cases r'
                · exact h1
                · exact h2
                · exact h3
                · exact h4
                · exact h5
            · refine .inl ⟨by simp [c4FindLowestEmptyRow, h5, h4, h3, h2, h1, h0], ?_⟩
              intro r
              by_cases hlo : r < 0
              · rw [c4Cell?_none b r col (by rintro ⟨hge, _⟩; omega)]
                simp
              · by_cases h6 : 6 ≤ r
                · exact hout r h6
                · interval_cases r
                  · exact h0
                  · exact h1
                  · exact h2
                  · exact h3
                  · exact h4
                  · exact h5

/-- A valid Connect-Four move has an in-range column with empty top. -/
theorem c4Valid_dest (s : C4State) (m : C4Move)
    (h : c4IsValidMove s m = true) :
    0 ≤ m.column ∧ m.column ≤ 6 ∧ c4Cell? s.board 0 m.column = some "" := by
  unfold c4IsValidMove at h
  split at h
  · exact absurd h (by simp)
  · rename_i hcond
    simp only [Bool.or_eq_true, decide_eq_true_eq] at hcond
    push_neg at hcond
    exact ⟨by omega, by omega, by simpa only [beq_iff_eq] using h⟩

/-- What `c4ApplyMove` returns on a valid move: the landing row from
the scan exists and the returned state is the single-cell update. -/
theorem c4Apply_ok (s : C4State) (m : C4Move)
    (h : c4IsValidMove s m = true) :
    ∃ r : Fin 6,
      c4FindLowestEmptyRow s.board m.column = (r.val : Int) ∧
      c4Cell? s.board (r.val : Int) m.column = some "" ∧
      (∀ r' : Int, (r.val : Int) < r' → c4Cell? s.board r' m.column ≠ some "") ∧
      c4ApplyMove s m = .ok
        { s with
          board := fun i j =>
            if (i.val : Int) = (r.val : Int) ∧ (j.val : Int) = m.column then
              m.player.str
            else s.board i j
          currentPlayer := m.player.next
          lastColumn := some m.column } := by
  obtain ⟨h0, h6, htop⟩ := c4Valid_dest s m h
  rcases c4Find_spec s.board m.column with ⟨_, hall⟩ | ⟨r, hfind, hcell, habove⟩
  · exact absurd htop (hall 0)
  · refine ⟨r, hfind, hcell, habove, ?_⟩
    unfold c4ApplyMove
    rw [hfind, if_neg (by omega)]

/-- C6: applying a legal move never mutates the input state (the
source builds a fresh board via `map`/spread, and the embedding is a
pure function of it) and the produced state's board differs from the
input board in exactly one cell — for both games.  For Connect-Four,
`applyMove` returns normally on every valid move. -/
theorem C6_applyMove_single_cell_update :
    (∀ (s : TTTState) (m : TTTMove), tttIsValidMove s m = true →
      boardDiffCount3 (tttApplyMove s m).board s.board = 1) ∧
    (∀ (s : C4State) (m : C4Move) (s' : C4State),
      c4IsValidMove s m = true → c4ApplyMove s m = .ok s' →
      boardDiffCount67 s'.board s.board = 1) := by
  constructor
  · intro s m hv
    obtain ⟨i, j, hi, hj, hcell⟩ := tttValid_dest s m hv
    unfold boardDiffCount3
    rw [Finset.card_eq_one]
    refine ⟨(i, j), ?_⟩
    ext p
    simp only [Finset.mem_filter, Finset.mem_univ, true_and,
      Finset.mem_singleton, tttApplyMove]
    constructor
    · intro hne
      by_contra hp
      apply hne
      have hcnd : ¬((p.1.val : Int) = m.row ∧ (p.2.val : Int) = m.col) := by
        rintro ⟨h1, h2⟩
        apply hp
        have e1 : p.1 = i := by
          apply Fin.ext
          have := h1.trans hi.symm
          exact_mod_cast this
        have e2 : p.2 = j := by
          apply Fin.ext
          have := h2.trans hj.symm
          exact_mod_cast this
        rw [Prod.ext_iff]
        exact ⟨e1, e2⟩
      exact if_neg hcnd
    · intro hp
      subst hp
      simp only [hi, hj, and_self, if_pos]
      rcases hcell with hc | hc <;> rw [hc] <;>
        cases s.currentPlayer <;> simp [TTTPlayer.symbol]
  · intro s m s' hv happ
    obtain ⟨h0, h6, htop⟩ := c4Valid_dest s m hv
    obtain ⟨r, hfind, hcell, _, happly⟩ := c4Apply_ok s m hv
    rw [happ] at happly
    have hs' := Except.ok.inj happly
    have hcol : ((m.column.toNat : Nat) : Int) = m.column :=
      Int.toNat_of_nonneg h0
    have hcellv : s.board r ⟨m.column.toNat, by omega⟩ = "" := by
      rw [c4Cell?_pos s.board (r.val : Int) m.column (by omega) (by exact_mod_cast r.isLt)
        h0 (by omega)] at hcell
      have := (Option.some.injEq _ _).mp hcell
      simpa using this
    unfold boardDiffCount67
    rw [Finset.card_eq_one]
    refine ⟨(r, ⟨m.column.toNat, by omega⟩), ?_⟩
    ext p
    simp only [Finset.mem_filter, Finset.mem_univ, true_and,
      Finset.mem_singleton, hs']
    constructor
    · intro hne
      by_contra hp
      apply hne
      have hcnd : ¬((p.1.val : Int) = (r.val : Int) ∧
          (p.2.val : Int) = m.column) := by
        rintro ⟨h1, h2⟩
        apply hp
        have e1 : p.1 = r := by
          apply Fin.ext
          exact_mod_cast h1
        have e2 : p.2 = (⟨m.column.toNat, by omega⟩ : Fin 7) := by
          apply Fin.ext
          have := h2.trans hcol.symm
          exact_mod_cast this
        rw [Prod.ext_iff]
        exact ⟨e1, e2⟩
      exact if_neg hcnd
    · intro hp
      subst hp
      simp only [hcol, and_self, if_pos]
      rw [hcellv]
      cases m.player <;> simp [C4Player.str]

/-- C6 witness: the centre move on the empty tic-tac-toe board and the
drop into column 2 of the Connect-Four fixture each change exactly one
cell. -/
theorem C6_witness :
    boardDiffCount3 demoC6Applied.board demoStateEmpty.board = 1 ∧
    boardDiffCount67 demoC8Applied.board demoC4State.board = 1 :=
  ⟨C6_applyMove_single_cell_update.1 demoStateEmpty ⟨1, 1⟩ (by decide),
   C6_applyMove_single_cell_update.2 demoC4State demoC8Move demoC8Applied
     (by decide) rfl⟩

/-- C7: on any board containing a completed line `checkGameEnd` ends
the game with a winner occupying a completed line (the first one in
the source's row/column/diagonal scan order); on a fully occupied
board without a line it reports a draw; otherwise the game is not
ended. -/
theorem C7_checkGameEnd_classification (s : TTTState) :
    (tttHasLine s.board = true →
      (tttCheckGameEnd s).isEnded = true ∧
      ∃ w, tttLineWinner s.board w ∧ (tttCheckGameEnd s).winner = some w) ∧
    (tttHasLine s.board = false → tttIsFull s.board = true →
      tttCheckGameEnd s = ⟨true, some "draw"⟩) ∧
    (tttHasLine s.board = false → tttIsFull s.board = false →
      tttCheckGameEnd s = ⟨false, none⟩) := by
  refine ⟨?_, ?_, ?_⟩
  · intro hl
    by_cases h1 : tttRowWin s.board 0
    · exact ⟨by simp [tttCheckGameEnd, h1], s.board 0 0,
        Or.inl ⟨0, h1, rfl⟩, by simp [tttCheckGameEnd, h1]⟩
    · by_cases h2 : tttRowWin s.board 1
      · exact ⟨by simp [tttCheckGameEnd, h1, h2], s.board 1 0,
          Or.inl ⟨1, h2, rfl⟩, by simp [tttCheckGameEnd, h1, h2]⟩
      · by_cases h3 : tttRowWin s.board 2
        · exact ⟨by simp [tttCheckGameEnd, h1, h2, h3], s.board 2 0,
            Or.inl ⟨2, h3, rfl⟩, by simp [tttCheckGameEnd, h1, h2, h3]⟩
        · by_cases h4 : tttColWin s.board 0
          · exact ⟨by simp [tttCheckGameEnd, h1, h2, h3, h4], s.board 0 0,
              Or.inr (Or.inl ⟨0, h4, rfl⟩),
              by simp [tttCheckGameEnd, h1, h2, h3, h4]⟩
          · by_cases h5 : tttColWin s.board 1
            · exact ⟨by simp [tttCheckGameEnd, h1, h2, h3, h4, h5],
                s.board 0 1, Or.inr (Or.inl ⟨1, h5, rfl⟩),
                by simp [tttCheckGameEnd, h1, h2, h3, h4, h5]⟩
            · by_cases h6 : tttColWin s.board 2
              · exact ⟨by simp [tttCheckGameEnd, h1, h2, h3, h4, h5, h6],
                  s.board 0 2, Or.inr (Or.inl ⟨2, h6, rfl⟩),
                  by simp [tttCheckGameEnd, h1, h2, h3, h4, h5, h6]⟩
              · by_cases h7 : tttDiagWin s.board
                · exact ⟨by simp [tttCheckGameEnd, h1, h2, h3, h4, h5, h6, h7],
                    s.board 0 0, Or.inr (Or.inr (Or.inl ⟨h7, rfl⟩)),
                    by simp [tttCheckGameEnd, h1, h2, h3, h4, h5, h6, h7]⟩
                · by_cases h8 : tttAntiDiagWin s.board
                  · exact ⟨by simp [tttCheckGameEnd, h1, h2, h3, h4, h5, h6, h7, h8],
                      s.board 0 2, Or.inr (Or.inr (Or.inr ⟨h8, rfl⟩)),
                      by simp [tttCheckGameEnd, h1, h2, h3, h4, h5, h6, h7, h8]⟩
                  · exact absurd hl
                      (by simp [tttHasLine, h1, h2, h3, h4, h5, h6, h7, h8])
  · intro hl hfull
    simp only [tttHasLine, Bool.or_eq_false_iff] at hl
    obtain ⟨⟨⟨⟨⟨⟨⟨h1, h2⟩, h3⟩, h4⟩, h5⟩, h6⟩, h7⟩, h8⟩ := hl
    simp [tttCheckGameEnd, h1, h2, h3, h4, h5, h6, h7, h8, hfull]
  · intro hl hfull
    simp only [tttHasLine, Bool.or_eq_false_iff] at hl
    obtain ⟨⟨⟨⟨⟨⟨⟨h1, h2⟩, h3⟩, h4⟩, h5⟩, h6⟩, h7⟩, h8⟩ := hl
    simp [tttCheckGameEnd, h1, h2, h3, h4, h5, h6, h7, h8, hfull]

/-- C7 witness: the classification at a row-win board, a drawn board
and the empty board. -/
theorem C7_witness :
    ((tttCheckGameEnd demoStateRowWin).isEnded = true ∧
      ∃ w, tttLineWinner demoStateRowWin.board w ∧
        (tttCheckGameEnd demoStateRowWin).winner = some w) ∧
    tttCheckGameEnd demoStateDraw = ⟨true, some "draw"⟩ ∧
    tttCheckGameEnd demoStateEmpty = ⟨false, none⟩ :=
  ⟨(C7_checkGameEnd_classification demoStateRowWin).1 (by decide),
   (C7_checkGameEnd_classification demoStateDraw).2.1 (by decide) (by decide),
   (C7_checkGameEnd_classification demoStateEmpty).2.2 (by decide) (by decide)⟩

/-- C8: a move into an in-range column whose top cell is occupied is
rejected with a reason containing "full"; a move into an in-range
column of a gravity-consistent board holding at least one empty cell
is accepted, and the piece lands at the empty cell with the greatest
row index (every cell strictly below it already occupied) — never
above an empty cell. -/
theorem C8_full_column_rejected_open_column_drops :
    (∀ (s : C4State) (m : C4Move), 0 ≤ m.column → m.column ≤ 6 →
      c4Cell? s.board 0 m.column ≠ some "" →
      c4IsValidMove s m = false ∧
      "full".data <:+: (c4GetInvalidMoveMessage s m).data) ∧
    (∀ (s : C4State) (m : C4Move) (h0 : 0 ≤ m.column)
      (h6 : m.column ≤ 6),
      c4ColumnGravity s.board ⟨m.column.toNat, by omega⟩ →
      (∃ re : Fin 6, s.board re ⟨m.column.toNat, by omega⟩ = "") →
      c4IsValidMove s m = true ∧
      ∃ (r : Fin 6) (s' : C4State),
        c4FindLowestEmptyRow s.board m.column = (r.val : Int) ∧
        s.board r ⟨m.column.toNat, by omega⟩ = "" ∧
        (∀ r' : Fin 6, r < r' → s.board r' ⟨m.column.toNat, by omega⟩ ≠ "") ∧
        c4ApplyMove s m = .ok s' ∧
        s'.board r ⟨m.column.toNat, by omega⟩ = m.player.str) := by
  constructor
  · intro s m h0 h6 htop
    have hc : ¬((m.column < 0 || m.column > 6) = true) := by
      simp only [Bool.or_eq_true, decide_eq_true_eq]
      push_neg
      omega
    constructor
    · unfold c4IsValidMove
      rw [if_neg hc]
      simpa only [beq_eq_false_iff_ne, ne_eq] using htop
    · unfold c4GetInvalidMoveMessage
      rw [if_neg hc]
      refine ⟨("Column " ++ toString m.column ++ " is ").data,
        (". Choose an OPEN column.").data, ?_⟩
      have hseg : " is ".data ++ ("full".data ++ ". Choose an OPEN column.".data) =
          " is full. Choose an OPEN column.".data := by decide
      simp only [String.data_append, List.append_assoc]
      rw [hseg]
  · intro s m h0 h6 hgrav hex
    obtain ⟨re, hre⟩ := hex
    have htopb : s.board ⟨0, by omega⟩ ⟨m.column.toNat, by omega⟩ = "" := by
      by_contra hne
      exact absurd hre (hgrav ⟨0, by omega⟩ re (Nat.zero_le _) hne)
    have hc : ¬((m.column < 0 || m.column > 6) = true) := by
      simp only [Bool.or_eq_true, decide_eq_true_eq]
      push_neg
      omega
    have hvalid : c4IsValidMove s m = true := by
      unfold c4IsValidMove
      rw [if_neg hc]
      rw [c4Cell?_pos s.board 0 m.column (by omega) (by omega) h0 (by omega)]
      simpa only [beq_iff_eq, Option.some.injEq] using htopb
    obtain ⟨r, hfind, hcell, habove, happly⟩ := c4Apply_ok s m hvalid
    have hcellv : s.board r ⟨m.column.toNat, by omega⟩ = "" := by
      rw [c4Cell?_pos s.board (r.val : Int) m.column (by omega)
        (by exact_mod_cast r.isLt) h0 (by omega)] at hcell
      have := (Option.some.injEq _ _).mp hcell.symm
      simpa using this.symm
    refine ⟨hvalid, r, _, hfind, hcellv, ?_, happly, ?_⟩
    · intro r' hlt heq
      have hlt' : (r.val : Int) < (r'.val : Int) := by exact_mod_cast hlt
      apply habove (r'.val : Int) hlt'
      rw [c4Cell?_pos s.board (r'.val : Int) m.column (by omega)
        (by exact_mod_cast r'.isLt) h0 (by omega)]
      simpa using heq
    · have hjc : (((⟨m.column.toNat, by omega⟩ : Fin 7)).val : Int) = m.column := by
        simpa using Int.toNat_of_nonneg h0
      simp [hjc]

/-- C8 witness: on the fixture board, the move into the full column 3
is rejected with a "full" reason, and the move into the open column 2
is accepted, landing on row 3 (above the two existing pieces and with
rows 4 and 5 occupied). -/
theorem C8_witness :
    (c4IsValidMove demoC4State ⟨3, .red⟩ = false ∧
      "full".data <:+: (c4GetInvalidMoveMessage demoC4State ⟨3, .red⟩).data) ∧
    (c4IsValidMove demoC4State demoC8Move = true ∧
      ∃ (r : Fin 6) (s' : C4State),
        c4FindLowestEmptyRow demoC4State.board demoC8Move.column = (r.val : Int) ∧
        demoC4State.board r ⟨demoC8Move.column.toNat, by decide⟩ = "" ∧
        (∀ r' : Fin 6, r < r' →
          demoC4State.board r' ⟨demoC8Move.column.toNat, by decide⟩ ≠ "") ∧
        c4ApplyMove demoC4State demoC8Move = .ok s' ∧
        s'.board r ⟨demoC8Move.column.toNat, by decide⟩ = demoC8Move.player.str) :=
  ⟨C8_full_column_rejected_open_column_drops.1 demoC4State ⟨3, .red⟩
      (by decide) (by decide) (by decide),
   C8_full_column_rejected_open_column_drops.2 demoC4State demoC8Move
      (by decide) (by decide) (by decide) (by decide)⟩

/-- C10: the legality check never consults the move's `player` field,
and `applyMove` plays the **move's** colour — the dropped cell holds
`m.player` and the next player is the opposite of `m.player`, whatever
`s.currentPlayer` was. -/
theorem C10_move_player_taken_at_face_value :
    (∀ (s : C4State) (col : Int) (p q : C4Player),
      c4IsValidMove s ⟨col, p⟩ = c4IsValidMove s ⟨col, q⟩) ∧
    (∀ (s : C4State) (m : C4Move) (s' : C4State),
      c4IsValidMove s m = true → c4ApplyMove s m = .ok s' →
      s'.currentPlayer = m.player.next ∧
      ∃ r : Fin 6,
        c4FindLowestEmptyRow s.board m.column = (r.val : Int) ∧
        c4Cell? s'.board (r.val : Int) m.column = some m.player.str) := by
  constructor
  · intro s col p q
    rfl
  · intro s m s' hv happ
    obtain ⟨h0, h6, htop⟩ := c4Valid_dest s m hv
    obtain ⟨r, hfind, hcell, habove, happly⟩ := c4Apply_ok s m hv
    rw [happ] at happly
    have hs' := Except.ok.inj happly
    constructor
    · rw [hs']
    · refine ⟨r, hfind, ?_⟩
      rw [hs']
      rw [c4Cell?_pos _ (r.val : Int) m.column (by omega)
        (by exact_mod_cast r.isLt) h0 (by omega)]
      have hjc : (((⟨m.column.toNat, by omega⟩ : Fin 7)).val : Int) = m.column := by
        simpa using Int.toNat_of_nonneg h0
      have hir : (((⟨(r.val : Int).toNat, by omega⟩ : Fin 6)).val : Int) = (r.val : Int) := by
        simp
      simp [hjc, hir]

/-- C10 witness: on the fixture (current player `red`), the move
`⟨0, yellow⟩` is as valid as `⟨0, red⟩`, and applying it lands a
`yellow` piece and hands the turn to `red`. -/
theorem C10_witness :
    c4IsValidMove demoC4State ⟨0, .red⟩ = c4IsValidMove demoC4State ⟨0, .yellow⟩ ∧
    demoC10Applied.currentPlayer = C4Player.yellow.next ∧
    ∃ r : Fin 6,
      c4FindLowestEmptyRow demoC4State.board demoC10Move.column = (r.val : Int) ∧
      c4Cell? demoC10Applied.board (r.val : Int) demoC10Move.column =
        some C4Player.yellow.str := by
  refine ⟨C10_move_player_taken_at_face_value.1 demoC4State 0 .red .yellow, ?_⟩
  exact C10_move_player_taken_at_face_value.2 demoC4State demoC10Move
    demoC10Applied (by decide) rfl

/-- Embeds `unhex` really inverts the hex-digit encoder on digit values. -/
theorem unhex_hexDigit (n : Nat) (h : n < 16) :
    unhex (escChar.hexDigit n) = n := by
  interval_cases n <;> decide

/-- The scanner consumes exactly one escaped character per step:
decoding `escChar a ++ t` yields `a` and continues on `t`. -/
theorem escSplit_escChar (a : Char) (f : Nat) (t : List Char) :
    escSplit (f + 1) (escChar a ++ t) =
      (fun p => (a :: p.1, p.2)) <$> escSplit f t := by
  by_cases h1 : a = '"'
  · subst h1
    simp [escChar, escSplit]
  · by_cases h2 : a = '\\'
    · subst h2
      simp [escChar, escSplit]
    · by_cases h3 : a = Char.ofNat 8
      · subst h3
        simp [escChar, escSplit]
      · by_cases h4 : a = Char.ofNat 9
        · subst h4
          simp [escChar, escSplit]
        · by_cases h5 : a = Char.ofNat 10
          · subst h5
            simp [escChar, escSplit]
          · by_cases h6 : a = Char.ofNat 12
            · subst h6
              simp [escChar, escSplit]
            · by_cases h7 : a = Char.ofNat 13
              · subst h7
                simp [escChar, escSplit]
              · by_cases h8 : a.toNat < 32
                · have e : escChar a = ['\\', 'u', '0', '0',
                      escChar.hexDigit (a.toNat / 16),
                      escChar.hexDigit (a.toNat % 16)] := by
                    simp [escChar, h1, h2, h3, h4, h5, h6, h7, h8]
                  rw [e]
                  have hc : Char.ofNat
                      (unhex (escChar.hexDigit (a.toNat / 16)) * 16 +
                        unhex (escChar.hexDigit (a.toNat % 16))) = a := by
                    rw [unhex_hexDigit _ (by omega), unhex_hexDigit _ (by omega)]
                    have harith : a.toNat / 16 * 16 + a.toNat % 16 = a.toNat := by
                      omega
                    rw [harith, Char.ofNat_toNat]
                  simp [escSplit, hc]
                · simp [escChar, escSplit, h1, h2, h3, h4, h5, h6, h7, h8]

/-- Scanning an escaped body terminated by an unescaped quote recovers
the body and the remainder (with enough fuel). -/
theorem escSplit_append (l : List Char) : ∀ (f : Nat) (r : List Char),
    l.length ≤ f →
    escSplit (f + 1) (escL l ++ '"' :: r) = some (l, r) := by
  induction l with
  | nil =>
    intro f r _
    simp [escL, escSplit]
  | cons a l ih =>
    intro f r hf
    cases f with
    | zero => simp at hf
    | succ f' =>
      rw [show escL (a :: l) = escChar a ++ escL l from rfl, List.append_assoc,
        escSplit_escChar a (f' + 1) (escL l ++ '"' :: r),
        ih f' r (by simp at hf; omega)]
      rfl

/-- Two escaped bodies with their quote terminators and remainders are
equal as streams only componentwise (the serialization of a JSON
string literal is unambiguous). -/
theorem escL_quote_inj (l1 l2 r1 r2 : List Char)
    (h : escL l1 ++ '"' :: r1 = escL l2 ++ '"' :: r2) :
    l1 = l2 ∧ r1 = r2 := by
  have h1 := escSplit_append l1 (max l1.length l2.length) r1
    (le_max_left _ _)
  have h2 := escSplit_append l2 (max l1.length l2.length) r2
    (le_max_right _ _)
  rw [h] at h1
  rw [h1] at h2
  have h3 := Option.some.inj h2
  exact ⟨congrArg Prod.fst h3, congrArg Prod.snd h3⟩

/-- Decomposition of the cache key's character stream: fixed literal
prefix, quoted escaped provider tag, fixed literal, quoted escaped
model id, and a remainder. -/
theorem createCacheKey_data (c : ProviderConfig) (t : String) :
    (createCacheKey c t).data =
      "\x7b\"provider\":".data ++ '"' :: (escL c.provider.tag.data ++ '"' ::
        (",\"model\":".data ++ '"' :: (escL c.model.data ++ '"' ::
          (",\"temperature\":" ++ t ++
           optField "url" (c.url.map jsonStr) ++
           ",\"apiKey\":" ++
             jsonStr (if truthyO c.apiKey then "present" else "missing") ++
           optField "azureInstance" (c.azureOpenAIApiInstanceName.map jsonStr) ++
           optField "azureDeployment" (c.azureOpenAIApiDeploymentName.map jsonStr) ++
           optField "azureVersion" (c.azureOpenAIApiVersion.map jsonStr) ++
           optField "region" (c.region.map jsonStr) ++
           ",\"accessKeyId\":" ++
             jsonStr (if truthyO c.accessKeyId then "present" else "missing") ++
           "\x7d").data))) := by
  have hq : ("\"" : String).data = ['"'] := rfl
  have hmk : ∀ l : List Char, (String.mk l).data = l := fun _ => rfl
  simp only [createCacheKey, jsonStr, jsonEscape, String.data_append, hq, hmk,
    List.append_assoc, List.cons_append, List.singleton_append, List.nil_append]

/-- C5: the backend cache key ignores the values of the secret fields
beyond their presence — configurations identical except in present
secret values (`apiKey`, `secretAccessKey`) share a key, and replacing
all secret-bearing fields (`apiKey`, `secretAccessKey`, `accessKeyId`)
by any values of equal presence leaves the key unchanged, so the key
embeds only presence flags, never raw secret material — while
configurations differing in model id always get different keys. -/
theorem C5_cacheKey_secret_free_fingerprint :
    (∀ (c1 c2 : ProviderConfig) (t : String),
      c2 = { c1 with apiKey := c2.apiKey,
                     secretAccessKey := c2.secretAccessKey } →
      truthyO c1.apiKey = truthyO c2.apiKey →
      createCacheKey c1 t = createCacheKey c2 t) ∧
    (∀ (c1 c2 : ProviderConfig) (t : String),
      c1.model ≠ c2.model →
      createCacheKey c1 t ≠ createCacheKey c2 t) ∧
    (∀ (c : ProviderConfig) (t : String) (k sk ak : Option String),
      truthyO k = truthyO c.apiKey →
      truthyO ak = truthyO c.accessKeyId →
      createCacheKey
        { c with apiKey := k, secretAccessKey := sk, accessKeyId := ak } t =
        createCacheKey c t) := by
  refine ⟨?_, ?_, ?_⟩
  · intro c1 c2 t h2 hp
    rw [h2]
    simp [createCacheKey, hp]
  · intro c1 c2 t hmod heq
    apply hmod
    have hd := congrArg String.data heq
    rw [createCacheKey_data, createCacheKey_data] at hd
    have hd2 := List.append_cancel_left hd
    injection hd2 with _ hd3
    obtain ⟨-, hd4⟩ := escL_quote_inj _ _ _ _ hd3
    have hd5 := List.append_cancel_left hd4
    injection hd5 with _ hd6
    obtain ⟨hm, -⟩ := escL_quote_inj _ _ _ _ hd6
    exact String.ext hm
  · intro c t k sk ak hk hak
    simp [createCacheKey, hk, hak]

/-- C5 witness: rotating the secrets of the OpenAI fixture keeps its
key; changing only the model id changes it; redacting all
secret-bearing fields with presence kept also keeps it. -/
theorem C5_witness :
    createCacheKey demoCfgA "0.3" = createCacheKey demoCfgB "0.3" ∧
    createCacheKey demoCfgA "0.3" ≠ createCacheKey demoCfgC "0.3" ∧
    createCacheKey
      { demoCfgA with apiKey := some "sk-rotated",
                      secretAccessKey := some "other",
                      accessKeyId := none } "0.3" =
      createCacheKey demoCfgA "0.3" :=
  ⟨C5_cacheKey_secret_free_fingerprint.1 demoCfgA demoCfgB "0.3"
      (by decide) (by decide),
   C5_cacheKey_secret_free_fingerprint.2.1 demoCfgA demoCfgC "0.3"
      (by decide),
   C5_cacheKey_secret_free_fingerprint.2.2 demoCfgA "0.3"
      (some "sk-rotated") (some "other") none (by decide) (by decide)⟩

end Vibeplay
